import Mathlib

/-!
Shallow embedding of the netdata multichain plugin
(`multichain.node.js`) and verification of its specification claims.

JavaScript conventions modelled here:
* a possibly-absent object property is an `Option` (or the `JsValue.undef`
  constructor of `JsValue`), `none`/`undef` standing for JS `undefined`;
* `Array.prototype.find` returns the first element satisfying the
  predicate, or `undefined` when there is none (`jsFind`);
* a value in boolean position is tested for truthiness (`jsTruthy`);
* string interpolation of a value renders `undefined` as the string
  `"undefined"` (`jsDisplay`).
-/

namespace Multichain

/-- A JavaScript value as it occurs in the plugin's configuration path:
`undefined`, a string, or a number (numbers that occur are integers). -/
inductive JsValue where
  | undef
  | str (s : String)
  | num (n : Int)
deriving DecidableEq, Repr

/-- Source `isUndefined` (line 469): `typeof value === 'undefined'`. -/
def isUndefined : JsValue → Bool
  | JsValue.undef => true
  | _ => false

/-- Source `isDefined` (line 477): `typeof value !== 'undefined'`. -/
def isDefined (v : JsValue) : Bool := !(isUndefined v)

/-- JavaScript `Array.prototype.find`: first element satisfying `p`,
or `undefined` when none does. -/
def jsFind (p : JsValue → Bool) : List JsValue → JsValue
  | [] => JsValue.undef
  | v :: vs => if p v then v else jsFind p vs

/-- Source `areUndefined` (line 473):
`values.find(value => this.isUndefined(value))`.
Its result is the value returned by `find`: the first undefined element
(which is itself `undefined`) or `undefined` when every element is
defined. -/
def areUndefined (values : List JsValue) : JsValue :=
  jsFind isUndefined values

/-- JavaScript truthiness of a `JsValue`, as used in
`if (this.areUndefined(...))` and `if (stream.subscribed)`. -/
def jsTruthy : JsValue → Bool
  | JsValue.undef => false
  | JsValue.str s => s ≠ ""
  | JsValue.num n => n ≠ 0

/-- String interpolation of a `JsValue` (template literals render
`undefined` as "undefined"). -/
def jsDisplay : JsValue → String
  | JsValue.undef => "undefined"
  | JsValue.str s => s
  | JsValue.num n => toString n

/-- One entry of `config.servers`. Config files (multichain.conf.md)
supply `name, hostname, port, username, password, chain, path` and
optionally `update_every`; any of them may be absent (undefined).
`updateEvery` is a distinct JS property: it is never present in the
documented configuration, but `serviceExecute` (line 434) reads it, so
it is carried here as its own field. -/
structure ServerConfig where
  name : JsValue
  hostname : JsValue
  port : JsValue
  username : JsValue
  password : JsValue
  chain : JsValue
  path : JsValue
  update_every : JsValue
  updateEvery : JsValue
deriving DecidableEq, Repr

/-- The raw configuration object handed to `configure`; the `servers`
key may be absent. -/
structure RawConfig where
  servers : Option (List ServerConfig)

/-- Global default from the `multichain` module object (line 114):
`update_every: 5`. -/
def multichain_update_every : Int := 5

/-- Base priority from the `multichain` module object (line 115). -/
def base_priority : Int := 60000

/-- The service object built by `serviceExecute` (lines 432-442) via
`netdata.service({...})`; the `processor` and `module` wiring fields are
host plumbing and carry no data of their own. Note line 434 reads
`server.updateEvery`, not `server.update_every`. -/
structure Service where
  name : JsValue
  update_every : JsValue
  hostname : JsValue
  port : JsValue
  username : JsValue
  password : JsValue
  chain : JsValue
deriving DecidableEq, Repr

/-- Source `serviceExecute` (lines 429-444): builds the service record
registered with the host scheduler. The embedding returns the built
service; `service.execute(...)` hands it to the host. -/
def serviceExecute (server : ServerConfig) : Service :=
  { name := server.name
    update_every := server.updateEvery
    hostname := server.hostname
    port := server.port
    username := server.username
    password := server.password
    chain := server.chain }

/-- The body of `configure`'s `forEach` loop (lines 449-455), acting on
the accumulated (count, registered services) pair: default
`update_every`, test `areUndefined` for truthiness, and on the `else`
branch register the server and increment the count. -/
def configureStep (acc : Int × List Service) (server : ServerConfig) :
    Int × List Service :=
  let server :=
    if isUndefined server.update_every then
      { server with update_every := JsValue.num multichain_update_every }
    else server
  if jsTruthy (areUndefined
      [server.name, server.hostname, server.port, server.username,
       server.password, server.chain, server.path]) then
    acc
  else
    (acc.1 + 1, acc.2 ++ [serviceExecute server])

/-- Source `configure` (lines 446-457). Returns the count `added`
together with the list of services registered with the host (each
`serviceExecute` call), in order. -/
def configure (config : RawConfig) : Int × List Service :=
  match config.servers with
  | none => (0, [])
  | some servers => servers.foldl configureStep (0, [])

/-- A chart dimension as built by `createBasicDimension` (lines 142-151). -/
structure Dimension where
  id : String
  name : String
  algorithm : String
  multiplier : Int
  divisor : Int
  hidden : Bool
deriving DecidableEq, Repr

/-- Source `createBasicDimension` (lines 142-151);
`netdata.chartAlgorithms.absolute` is the string "absolute". -/
def createBasicDimension (id : String) (name : String) (divisor : Int) : Dimension :=
  { id := id
    name := name
    algorithm := "absolute"
    multiplier := 1
    divisor := divisor
    hidden := false }

/-- `multichain.dimensions.blocksSize` (lines 118-120), as
(key, value) = (display name, dimension id / stats field) pairs in
object-literal insertion order. -/
def dimensions_blocksSize : List (String × String) := [("size", "memSize")]

/-- `multichain.dimensions.blocksMemory` (lines 121-123). -/
def dimensions_blocksMemory : List (String × String) := [("memory", "memBytes")]

/-- `multichain.dimensions.blocks` (lines 124-126). -/
def dimensions_blocks : List (String × String) := [("blocks", "blocks")]

/-- `multichain.dimensions.connections` (lines 127-129). -/
def dimensions_connections : List (String × String) := [("connections", "connections")]

/-- `multichain.dimensions.stream.items` (lines 131-134). -/
def dimensions_stream_items : List (String × String) :=
  [("confirmed", "confirmed"), ("unconfirmed", "unconfirmed")]

/-- `multichain.dimensions.stream.keys` (lines 135-137). -/
def dimensions_stream_keys : List (String × String) := [("keys", "keys")]

/-- The `dim` object built by each get-chart function:
`Object.keys(table).forEach(d => dim[table[d]] = createBasicDimension(table[d], d, 1))`. -/
def buildDims (table : List (String × String)) : List (String × Dimension) :=
  table.map (fun p => (p.2, createBasicDimension p.2 p.1 1))

/-- A chart definition as registered with the host
(`ctype` embeds the `type` field; `netdata.chartTypes.area`/`line` are
the strings "area"/"line"). -/
structure Chart where
  id : String
  name : String
  title : String
  units : String
  family : String
  context : String
  ctype : String
  priority : Int
  update_every : JsValue
  dimensions : List (String × Dimension)
deriving DecidableEq, Repr

/-- The mutable module state: the `multichain.charts` cache object
(line 140, keyed by chart id) together with the log of
`service.chart(id, chart)` registration calls made to the host sink.
The host's `service.chart` is modelled as registering the chart and
returning it. -/
structure ChartsState where
  charts : List (String × Chart)
  registrations : List (String × Chart)
deriving DecidableEq, Repr

/-- The empty initial state (`charts: {}`, no registrations yet). -/
def emptyChartsState : ChartsState := { charts := [], registrations := [] }

/-- Lookup `multichain.charts[id]` (`undefined`, i.e. `none`, on miss). -/
def findChart : List (String × Chart) → String → Option Chart
  | [], _ => none
  | p :: ps, id => if p.1 = id then some p.2 else findChart ps id

/-- Source `getChartId` (lines 399-401): the template literal
`${service.name}.${suffix}`. -/
def getChartId (service : Service) (suffix : String) : String :=
  jsDisplay service.name ++ "." ++ suffix

/-- Source `getStreamKeysChart` (lines 154-180): get-or-create the
per-stream keys chart. -/
def getStreamKeysChart (service : Service) (streamName : String)
    (st : ChartsState) : Chart × ChartsState :=
  let id := getChartId service ("stream." ++ streamName ++ ".key")
  match findChart st.charts id with
  | some chart => (chart, st)
  | none =>
    let chart : Chart :=
      { id := id
        name := ""
        title := jsDisplay service.name ++ " stream " ++ streamName ++ " keys"
        units := "keys"
        family := "stream " ++ streamName
        context := "multichain"
        ctype := "area"
        priority := base_priority + 1
        update_every := service.update_every
        dimensions := buildDims dimensions_stream_keys }
    (chart, { charts := st.charts ++ [(id, chart)]
              registrations := st.registrations ++ [(id, chart)] })

/-- Source `getStreamItemsChart` (lines 182-208). -/
def getStreamItemsChart (service : Service) (streamName : String)
    (st : ChartsState) : Chart × ChartsState :=
  let id := getChartId service ("stream." ++ streamName ++ ".items")
  match findChart st.charts id with
  | some chart => (chart, st)
  | none =>
    let chart : Chart :=
      { id := id
        name := ""
        title := jsDisplay service.name ++ " stream " ++ streamName ++ " items"
        units := "items"
        family := "stream " ++ streamName
        context := "multichain"
        ctype := "area"
        priority := base_priority + 1
        update_every := service.update_every
        dimensions := buildDims dimensions_stream_items }
    (chart, { charts := st.charts ++ [(id, chart)]
              registrations := st.registrations ++ [(id, chart)] })

/-- Source `getBlocksSizeChart` (lines 210-236). -/
def getBlocksSizeChart (service : Service) (st : ChartsState) :
    Chart × ChartsState :=
  let id := getChartId service "blocks.size"
  match findChart st.charts id with
  | some chart => (chart, st)
  | none =>
    let chart : Chart :=
      { id := id
        name := ""
        title := jsDisplay service.name ++ " blocks size"
        units := "transactions"
        family := "blocks"
        context := "multichain"
        ctype := "area"
        priority := base_priority + 1
        update_every := service.update_every
        dimensions := buildDims dimensions_blocksSize }
    (chart, { charts := st.charts ++ [(id, chart)]
              registrations := st.registrations ++ [(id, chart)] })

/-- Source `getBlocksMemoryChart` (lines 238-264). -/
def getBlocksMemoryChart (service : Service) (st : ChartsState) :
    Chart × ChartsState :=
  let id := getChartId service "blocks.memory"
  match findChart st.charts id with
  | some chart => (chart, st)
  | none =>
    let chart : Chart :=
      { id := id
        name := ""
        title := jsDisplay service.name ++ " blocks memory"
        units := "bytes"
        family := "blocks"
        context := "multichain"
        ctype := "area"
        priority := base_priority + 1
        update_every := service.update_every
        dimensions := buildDims dimensions_blocksMemory }
    (chart, { charts := st.charts ++ [(id, chart)]
              registrations := st.registrations ++ [(id, chart)] })

/-- Source `getBlocksChart` (lines 266-292). -/
def getBlocksChart (service : Service) (st : ChartsState) :
    Chart × ChartsState :=
  let id := getChartId service "blocks.count"
  match findChart st.charts id with
  | some chart => (chart, st)
  | none =>
    let chart : Chart :=
      { id := id
        name := ""
        title := jsDisplay service.name ++ " blocks"
        units := "blocks"
        family := "blocks"
        context := "multichain"
        ctype := "area"
        priority := base_priority + 1
        update_every := service.update_every
        dimensions := buildDims dimensions_blocks }
    (chart, { charts := st.charts ++ [(id, chart)]
              registrations := st.registrations ++ [(id, chart)] })

/-- Source `getConnectionsChart` (lines 294-320). -/
def getConnectionsChart (service : Service) (st : ChartsState) :
    Chart × ChartsState :=
  let id := getChartId service "connections.count"
  match findChart st.charts id with
  | some chart => (chart, st)
  | none =>
    let chart : Chart :=
      { id := id
        name := ""
        title := jsDisplay service.name ++ " connections"
        units := "connections"
        family := "connections"
        context := "multichain"
        ctype := "line"
        priority := base_priority + 1
        update_every := service.update_every
        dimensions := buildDims dimensions_connections }
    (chart, { charts := st.charts ++ [(id, chart)]
              registrations := st.registrations ++ [(id, chart)] })

/-- One entry of the `liststreams` RPC result, with the fields the
plugin reads. The claims exercise only entries whose numeric fields are
present, so they are carried as plain integers; `subscribed` is read for
truthiness. -/
structure Stream where
  name : String
  subscribed : Bool
  items : Int
  confirmed : Int
  keys : Int
deriving DecidableEq, Repr

/-- The snapshot accumulated by the collector (`data` in `process`) and
consumed by the mapper (`stats`). Every field may be `undefined`:
`streams` is whatever `liststreams` returned at `body.result`. -/
structure Stats where
  blocks : Option Int
  connections : Option Int
  memSize : Option Int
  memBytes : Option Int
  streams : Option (List Stream)
deriving DecidableEq, Repr

/-- Source `isResponseValid` (lines 420-423): requires `blocks` and
`connections` to be defined. -/
def isResponseValid (json : Stats) : Bool :=
  if json.blocks.isNone then false else json.connections.isSome

/-- The `content` argument of `processResponse`: JS `null`, an object
(or a JSON string that parses to that object), or a string that is not
valid JSON. -/
inductive Content where
  | jsNull
  | parsed (stats : Stats)
  | unparsable
deriving DecidableEq, Repr

/-- Source `convertToJson` (lines 403-417): `null` stays `null`, an
unparsable string becomes `null` (logged), and a parsed object is kept
only if `isResponseValid` accepts it. -/
def convertToJson : Content → Option Stats
  | Content.jsNull => none
  | Content.unparsable => none
  | Content.parsed stats => if isResponseValid stats then some stats else none

/-- Source `getDimension` (lines 391-393): a `{name, value}` pair; the
value may be `undefined` when the stats field is absent. -/
structure DimValue where
  name : String
  value : Option Int
deriving DecidableEq, Repr

def getDimension (name : String) (value : Option Int) : DimValue :=
  { name := name, value := value }

/-- Source `getChart` (lines 395-397): a `{chart, dimensions}` pair. -/
structure Sample where
  chart : Chart
  dimensions : List DimValue
deriving DecidableEq, Repr

def getChart (chart : Chart) (dimensions : List DimValue) : Sample :=
  { chart := chart, dimensions := dimensions }

/-- Dynamic field lookup `stats[field]` for the node-level fields read
through the dimension tables (`undefined` for any other key). -/
def statsLookup (stats : Stats) : String → Option Int
  | "memSize" => stats.memSize
  | "memBytes" => stats.memBytes
  | "blocks" => stats.blocks
  | "connections" => stats.connections
  | _ => none

/-- Dynamic field lookup `streamStats[field]` for the stream fields read
through the dimension tables. -/
def streamLookup (stream : Stream) : String → Option Int
  | "items" => some stream.items
  | "confirmed" => some stream.confirmed
  | "keys" => some stream.keys
  | _ => none

/-- Source `parseStreamItemsChart` (lines 354-362): the `unconfirmed`
value is `items - confirmed`, unclamped. -/
def parseStreamItemsChart (service : Service) (streamStats : Stream)
    (st : ChartsState) : Sample × ChartsState :=
  let items := streamStats.items
  let confirmed := streamStats.confirmed
  let r := getStreamItemsChart service streamStats.name st
  (getChart r.1
    [ getDimension "confirmed" (some streamStats.confirmed),
      getDimension "unconfirmed" (some (items - confirmed)) ], r.2)

/-- Source `parseStreamKeysChart` (lines 364-368). -/
def parseStreamKeysChart (service : Service) (streamStats : Stream)
    (st : ChartsState) : Sample × ChartsState :=
  let r := getStreamKeysChart service streamStats.name st
  (getChart r.1
    (dimensions_stream_keys.map
      (fun p => getDimension p.2 (streamLookup streamStats p.2))), r.2)

/-- Source `parseBlocksSizeChart` (lines 370-374). -/
def parseBlocksSizeChart (service : Service) (stats : Stats)
    (st : ChartsState) : Sample × ChartsState :=
  let r := getBlocksSizeChart service st
  (getChart r.1
    (dimensions_blocksSize.map
      (fun p => getDimension p.2 (statsLookup stats p.2))), r.2)

/-- Source `parseBlocksMemoryChart` (lines 375-379). -/
def parseBlocksMemoryChart (service : Service) (stats : Stats)
    (st : ChartsState) : Sample × ChartsState :=
  let r := getBlocksMemoryChart service st
  (getChart r.1
    (dimensions_blocksMemory.map
      (fun p => getDimension p.2 (statsLookup stats p.2))), r.2)

/-- Source `parseBlocksChart` (lines 380-384). -/
def parseBlocksChart (service : Service) (stats : Stats)
    (st : ChartsState) : Sample × ChartsState :=
  let r := getBlocksChart service st
  (getChart r.1
    (dimensions_blocks.map
      (fun p => getDimension p.2 (statsLookup stats p.2))), r.2)

/-- Source `parseConnectionsChart` (lines 385-389). -/
def parseConnectionsChart (service : Service) (stats : Stats)
    (st : ChartsState) : Sample × ChartsState :=
  let r := getConnectionsChart service st
  (getChart r.1
    (dimensions_connections.map
      (fun p => getDimension p.2 (statsLookup stats p.2))), r.2)

/-- The body of `parseCharts`'s `forEach` loop (lines 341-346): each
subscribed stream pushes its items chart sample then its keys chart
sample onto the accumulated list, threading the chart cache state. -/
def streamStep (service : Service) (acc : List Sample × ChartsState)
    (stream : Stream) : List Sample × ChartsState :=
  if stream.subscribed then
    let r1 := parseStreamItemsChart service stream acc.2
    let r2 := parseStreamKeysChart service stream r1.2
    (acc.1 ++ [r1.1, r2.1], r2.2)
  else acc

/-- Source `parseCharts` (lines 339-352). `stats.streams.forEach` throws
a TypeError when `stats.streams` is `undefined`; otherwise the stream
loop (`streamStep`) runs, and the four node-level chart samples follow.
The chart cache state is threaded through every get-or-create call. -/
def parseCharts (service : Service) (stats : Stats) (st : ChartsState) :
    Except String (List Sample × ChartsState) :=
  match stats.streams with
  | none => Except.error "TypeError: Cannot read property forEach of undefined"
  | some streams =>
    let folded := streams.foldl (streamStep service) ([], st)
    let r1 := parseBlocksSizeChart service stats folded.2
    let r2 := parseBlocksMemoryChart service stats r1.2
    let r3 := parseBlocksChart service stats r2.2
    let r4 := parseConnectionsChart service stats r3.2
    Except.ok (folded.1 ++ [r1.1, r2.1, r3.1, r4.1], r4.2)

/-- One call made to the host metrics sink during `processResponse`
(`service.commit()`, `service.begin(chart)` — recorded by chart id —,
`service.set(name, value)`, `service.end()`). -/
inductive SinkEvent where
  | commit
  | beginChart (id : String)
  | set (name : String) (value : Option Int)
  | endChart
deriving DecidableEq, Repr

/-- The begin/set.../end burst emitted for one sample
(lines 330-336). -/
def sampleEvents (sample : Sample) : List SinkEvent :=
  [SinkEvent.beginChart sample.chart.id]
    ++ sample.dimensions.map (fun d => SinkEvent.set d.name d.value)
    ++ [SinkEvent.endChart]

/-- Source `processResponse` (lines 322-337): convert and validate the
content; on `null` return with no sink interaction; otherwise commit,
map the stats to samples and emit one begin/set/end burst per sample.
A TypeError thrown inside `parseCharts` propagates (`Except.error`). -/
def processResponse (service : Service) (content : Content)
    (st : ChartsState) : Except String (List SinkEvent × ChartsState) :=
  match convertToJson content with
  | none => Except.ok ([], st)
  | some stats =>
    match parseCharts service stats st with
    | Except.error e => Except.error e
    | Except.ok r =>
      Except.ok (SinkEvent.commit :: r.1.flatMap sampleEvents, r.2)

/-- `body.result` may be absent from an RPC reply body. -/
structure RpcBody (α : Type) where
  result : Option α
deriving DecidableEq, Repr

/-- An RPC reply as seen by the collector: only `body` is read. -/
structure RpcReply (α : Type) where
  body : RpcBody α
deriving DecidableEq, Repr

/-- Fields of `getinfo`'s `body.result` that the collector reads. -/
structure InfoResult where
  blocks : Option Int
  connections : Option Int
deriving DecidableEq, Repr

/-- Fields of `getmempoolinfo`'s `body.result` that the collector
reads. -/
structure MempoolResult where
  size : Option Int
  bytes : Option Int
deriving DecidableEq, Repr

/-- Source `process` (lines 80-108), the collector's promise chain, as a
function of the outcomes of the three `post` calls (`Except.error` is a
rejected promise). Reading `info.body.result.blocks` when `result` is
`undefined` throws, and the throw — like any rejection — lands in the
final `.catch`, which calls `callback(null)`: the function returns the
value passed to `callback`, `none` standing for `null`. -/
def process (c1 : Except String (RpcReply InfoResult))
    (c2 : Except String (RpcReply MempoolResult))
    (c3 : Except String (RpcReply (List Stream))) : Option Stats :=
  match c1 with
  | Except.error _ => none
  | Except.ok info =>
    match info.body.result with
    | none => none
    | some res1 =>
      match c2 with
      | Except.error _ => none
      | Except.ok mempoolinfo =>
        match mempoolinfo.body.result with
        | none => none
        | some res2 =>
          match c3 with
          | Except.error _ => none
          | Except.ok streams =>
            some { blocks := res1.blocks
                   connections := res1.connections
                   memSize := res2.size
                   memBytes := res2.bytes
                   streams := streams.body.result }

/-- The body of a `post` response: the parsed JSON payload, or
`{ error: e }` when `JSON.parse` threw. -/
inductive PostBody (α : Type) where
  | json (a : α)
  | jsonError (e : String)
deriving DecidableEq, Repr

/-- The response object `post` settles its promise with (headers are
host plumbing and carry no decision). The rejection value built for a
connection-level error has this same shape
(`{statusCode: -1, statusMessage: 'Error during call', body: {error: e}}`). -/
structure PostResponse (α : Type) where
  statusCode : Int
  statusMessage : String
  body : PostBody α
deriving DecidableEq, Repr

/-- What the network did for one `post` call: a connection-level error
(the request's `error` event), or an HTTP response with a status line
and a body whose JSON parse either succeeded or threw. -/
inductive HttpOutcome (α : Type) where
  | connError (e : String)
  | gotResponse (statusCode : Int) (statusMessage : String)
      (parse : Except String α)
deriving Repr

/-- Source `post` (lines 31-79) as a function of the network outcome:
`Except.ok` is a resolved promise, `Except.error` a rejected one.
A parse failure is folded into `body` without affecting settlement;
the status code alone decides resolve (in [200,299]) versus reject. -/
def post {α : Type} (o : HttpOutcome α) :
    Except (PostResponse α) (PostResponse α) :=
  match o with
  | HttpOutcome.connError e =>
    Except.error
      { statusCode := -1, statusMessage := "Error during call"
        body := PostBody.jsonError e }
  | HttpOutcome.gotResponse sc sm parse =>
    let body := match parse with
      | Except.ok a => PostBody.json a
      | Except.error e => PostBody.jsonError e
    let response : PostResponse α :=
      { statusCode := sc, statusMessage := sm, body := body }
    if sc < 200 || sc > 299 then Except.error response
    else Except.ok response

/-- Cache well-formedness: `multichain.charts` maps every key to a chart
whose `id` field is that key. It holds of the initial empty cache and is
preserved by every get-or-create function, since each caches the chart
under its own id. -/
def WFCharts (st : ChartsState) : Prop := ∀ p ∈ st.charts, p.2.id = p.1

/-- How many `service.chart` registration calls have been made for a
given chart id. -/
def regCount (st : ChartsState) (id : String) : Nat :=
  (st.registrations.filter (fun p => p.1 = id)).length

/-- The observable content of a sample: the chart id it targets and the
(name, value) dimension pairs set on it. -/
def sampleView (sample : Sample) : String × List DimValue :=
  (sample.chart.id, sample.dimensions)

/-- Modelled from the spec (§4.4 step 1): the per-stream samples the
mapper must emit — for each subscribed stream, in RPC order, the items
chart with `confirmed` and `unconfirmed = items - confirmed`, then the
keys chart with `keys`. Compared against `parseCharts`. -/
def specStreamSamples (service : Service) (streams : List Stream) :
    List (String × List DimValue) :=
  (streams.filter (fun s => s.subscribed)).flatMap (fun s =>
    [ (getChartId service ("stream." ++ s.name ++ ".items"),
       [ getDimension "confirmed" (some s.confirmed),
         getDimension "unconfirmed" (some (s.items - s.confirmed)) ]),
      (getChartId service ("stream." ++ s.name ++ ".key"),
       [ getDimension "keys" (some s.keys) ]) ])

/-- Modelled from the spec (§4.4 step 2): the node-level samples the
mapper must emit after the stream samples, in order. The dimension ids
`memSize` and `memBytes` are the ones whose display names in the chart
definitions are `size` and `memory` (see `dimensions_blocksSize` and
`dimensions_blocksMemory`). Compared against `parseCharts`. -/
def specNodeSamples (service : Service) (stats : Stats) :
    List (String × List DimValue) :=
  [ (getChartId service "blocks.size",
     [getDimension "memSize" stats.memSize]),
    (getChartId service "blocks.memory",
     [getDimension "memBytes" stats.memBytes]),
    (getChartId service "blocks.count",
     [getDimension "blocks" stats.blocks]),
    (getChartId service "connections.count",
     [getDimension "connections" stats.connections]) ]

/-- The ids of the node-level charts, read off the four node-level
get-or-create functions started from the empty cache. -/
def nodeChartIds (service : Service) : List String :=
  [ (getBlocksSizeChart service emptyChartsState).1.id,
    (getBlocksMemoryChart service emptyChartsState).1.id,
    (getBlocksChart service emptyChartsState).1.id,
    (getConnectionsChart service emptyChartsState).1.id ]

/-- A concrete service (node "n1") used as evaluation input. -/
def svc1 : Service :=
  { name := JsValue.str "n1"
    update_every := JsValue.num 5
    hostname := JsValue.str "h"
    port := JsValue.num 1
    username := JsValue.str "u"
    password := JsValue.str "p"
    chain := JsValue.str "c" }

/-- The subscribed stream of the spec's worked example
(`{name:"s1", subscribed:true, items:10, confirmed:7, keys:3}`). -/
def streamEx : Stream :=
  { name := "s1", subscribed := true, items := 10, confirmed := 7, keys := 3 }

/-- A stream reporting `confirmed > items`, the unclamped-subtraction
edge case. -/
def streamNeg : Stream :=
  { name := "s2", subscribed := true, items := 3, confirmed := 5, keys := 0 }

/-- The snapshot of the spec's worked example: `getinfo` gave
`{blocks:100, connections:5}`, `getmempoolinfo` gave
`{size:2, bytes:512}`, `liststreams` gave `[streamEx]`. -/
def statsEx : Stats :=
  { blocks := some 100
    connections := some 5
    memSize := some 2
    memBytes := some 512
    streams := some [streamEx] }

/-- A snapshot with `blocks` and `connections` defined but no `streams`
field: it passes `isResponseValid` yet `parseCharts` is not total on
it. -/
def statsNoStreams : Stats :=
  { blocks := some 100
    connections := some 5
    memSize := some 2
    memBytes := some 512
    streams := none }

/-- A server entry missing the mandatory `name` field (every other
mandatory field present). -/
def srvBad : ServerConfig :=
  { name := JsValue.undef
    hostname := JsValue.str "h"
    port := JsValue.num 9
    username := JsValue.str "u"
    password := JsValue.str "p"
    chain := JsValue.str "c"
    path := JsValue.str "/"
    update_every := JsValue.undef
    updateEvery := JsValue.undef }

/-- A fully-populated server entry with a configured
`update_every` of 7; as in every documented configuration, it has no
`updateEvery` property. -/
def srv7 : ServerConfig :=
  { name := JsValue.str "n7"
    hostname := JsValue.str "h"
    port := JsValue.num 1
    username := JsValue.str "u"
    password := JsValue.str "p"
    chain := JsValue.str "c"
    path := JsValue.str "/"
    update_every := JsValue.num 7
    updateEvery := JsValue.undef }

/-! ### Helper lemmas -/

/-- `areUndefined` can only ever produce `undefined`: `Array.find`
returns the first undefined element — which is itself `undefined` — or
`undefined` when every element is defined. Hence its result is always
falsy in `configure`'s guard. -/
theorem areUndefined_eq_undef (vs : List JsValue) :
    areUndefined vs = JsValue.undef := by
  induction vs with
  | nil => rfl
  | cons v vs ih =>
    cases v with
    | undef => rfl
    | str s => simpa [areUndefined, jsFind, isUndefined] using ih
    | num n => simpa [areUndefined, jsFind, isUndefined] using ih

theorem findChart_append_self (l : List (String × Chart)) (id : String)
    (c : Chart) (h : findChart l id = none) :
    findChart (l ++ [(id, c)]) id = some c := by
  induction l with
  | nil => simp [findChart]
  | cons p ps ih =>
    by_cases hp : p.1 = id
    · simp [findChart, hp] at h
    · simp only [findChart, hp, List.cons_append, if_false] at h ⊢
      exact ih h

theorem findChart_mem (l : List (String × Chart)) (id : String) (c : Chart)
    (h : findChart l id = some c) : (id, c) ∈ l := by
  induction l with
  | nil => simp [findChart] at h
  | cons p ps ih =>
    by_cases hp : p.1 = id
    · simp only [findChart, hp, if_true] at h
      cases h
      subst hp
      exact List.mem_cons_self _ _
    · simp only [findChart, hp, if_false] at h
      exact List.mem_cons_of_mem _ (ih h)

theorem findChart_id (st : ChartsState) (id : String) (c : Chart)
    (hwf : WFCharts st) (h : findChart st.charts id = some c) : c.id = id :=
  hwf (id, c) (findChart_mem _ _ _ h)

theorem WFCharts_insert (st : ChartsState) (id : String) (chart : Chart)
    (hwf : WFCharts st) (hid : chart.id = id) :
    WFCharts { charts := st.charts ++ [(id, chart)]
               registrations := st.registrations ++ [(id, chart)] } := by
  intro p hp
  rcases List.mem_append.mp hp with hl | hr
  · exact hwf p hl
  · simp at hr
    subst hr
    exact hid

theorem WFCharts_empty : WFCharts emptyChartsState := by
  intro p hp
  simp [emptyChartsState] at hp

theorem getStreamKeysChart_spec (sv : Service) (s : String) (st : ChartsState)
    (hwf : WFCharts st) :
    (getStreamKeysChart sv s st).1.id
        = getChartId sv ("stream." ++ s ++ ".key") ∧
    WFCharts (getStreamKeysChart sv s st).2 := by
  unfold getStreamKeysChart
  cases h : findChart st.charts (getChartId sv ("stream." ++ s ++ ".key")) with
  | some c =>
    simp only [h]
    exact ⟨findChart_id st _ c hwf h, hwf⟩
  | none =>
    simp only [h]
    exact ⟨trivial, WFCharts_insert st _ _ hwf rfl⟩

theorem getStreamItemsChart_spec (sv : Service) (s : String) (st : ChartsState)
    (hwf : WFCharts st) :
    (getStreamItemsChart sv s st).1.id
        = getChartId sv ("stream." ++ s ++ ".items") ∧
    WFCharts (getStreamItemsChart sv s st).2 := by
  unfold getStreamItemsChart
  cases h : findChart st.charts (getChartId sv ("stream." ++ s ++ ".items")) with
  | some c =>
    simp only [h]
    exact ⟨findChart_id st _ c hwf h, hwf⟩
  | none =>
    simp only [h]
    exact ⟨trivial, WFCharts_insert st _ _ hwf rfl⟩

theorem getBlocksSizeChart_spec (sv : Service) (st : ChartsState)
    (hwf : WFCharts st) :
    (getBlocksSizeChart sv st).1.id = getChartId sv "blocks.size" ∧
    WFCharts (getBlocksSizeChart sv st).2 := by
  unfold getBlocksSizeChart
  cases h : findChart st.charts (getChartId sv "blocks.size") with
  | some c =>
    simp only [h]
    exact ⟨findChart_id st _ c hwf h, hwf⟩
  | none =>
    simp only [h]
    exact ⟨trivial, WFCharts_insert st _ _ hwf rfl⟩

theorem getBlocksMemoryChart_spec (sv : Service) (st : ChartsState)
    (hwf : WFCharts st) :
    (getBlocksMemoryChart sv st).1.id = getChartId sv "blocks.memory" ∧
    WFCharts (getBlocksMemoryChart sv st).2 := by
  unfold getBlocksMemoryChart
  cases h : findChart st.charts (getChartId sv "blocks.memory") with
  | some c =>
    simp only [h]
    exact ⟨findChart_id st _ c hwf h, hwf⟩
  | none =>
    simp only [h]
    exact ⟨trivial, WFCharts_insert st _ _ hwf rfl⟩

theorem getBlocksChart_spec (sv : Service) (st : ChartsState)
    (hwf : WFCharts st) :
    (getBlocksChart sv st).1.id = getChartId sv "blocks.count" ∧
    WFCharts (getBlocksChart sv st).2 := by
  unfold getBlocksChart
  cases h : findChart st.charts (getChartId sv "blocks.count") with
  | some c =>
    simp only [h]
    exact ⟨findChart_id st _ c hwf h, hwf⟩
  | none =>
    simp only [h]
    exact ⟨trivial, WFCharts_insert st _ _ hwf rfl⟩

theorem getConnectionsChart_spec (sv : Service) (st : ChartsState)
    (hwf : WFCharts st) :
    (getConnectionsChart sv st).1.id = getChartId sv "connections.count" ∧
    WFCharts (getConnectionsChart sv st).2 := by
  unfold getConnectionsChart
  cases h : findChart st.charts (getChartId sv "connections.count") with
  | some c =>
    simp only [h]
    exact ⟨findChart_id st _ c hwf h, hwf⟩
  | none =>
    simp only [h]
    exact ⟨trivial, WFCharts_insert st _ _ hwf rfl⟩

theorem getStreamKeysChart_idem (sv : Service) (s : String) (st : ChartsState) :
    getStreamKeysChart sv s ((getStreamKeysChart sv s st).2)
      = getStreamKeysChart sv s st := by
  unfold getStreamKeysChart
  cases h : findChart st.charts (getChartId sv ("stream." ++ s ++ ".key")) with
  | some c => simp [h]
  | none => simp [h, findChart_append_self _ _ _ h]

theorem getStreamItemsChart_idem (sv : Service) (s : String) (st : ChartsState) :
    getStreamItemsChart sv s ((getStreamItemsChart sv s st).2)
      = getStreamItemsChart sv s st := by
  unfold getStreamItemsChart
  cases h : findChart st.charts (getChartId sv ("stream." ++ s ++ ".items")) with
  | some c => simp [h]
  | none => simp [h, findChart_append_self _ _ _ h]

theorem getBlocksSizeChart_idem (sv : Service) (st : ChartsState) :
    getBlocksSizeChart sv ((getBlocksSizeChart sv st).2)
      = getBlocksSizeChart sv st := by
  unfold getBlocksSizeChart
  cases h : findChart st.charts (getChartId sv "blocks.size") with
  | some c => simp [h]
  | none => simp [h, findChart_append_self _ _ _ h]

theorem getBlocksMemoryChart_idem (sv : Service) (st : ChartsState) :
    getBlocksMemoryChart sv ((getBlocksMemoryChart sv st).2)
      = getBlocksMemoryChart sv st := by
  unfold getBlocksMemoryChart
  cases h : findChart st.charts (getChartId sv "blocks.memory") with
  | some c => simp [h]
  | none => simp [h, findChart_append_self _ _ _ h]

theorem getBlocksChart_idem (sv : Service) (st : ChartsState) :
    getBlocksChart sv ((getBlocksChart sv st).2) = getBlocksChart sv st := by
  unfold getBlocksChart
  cases h : findChart st.charts (getChartId sv "blocks.count") with
  | some c => simp [h]
  | none => simp [h, findChart_append_self _ _ _ h]

theorem getConnectionsChart_idem (sv : Service) (st : ChartsState) :
    getConnectionsChart sv ((getConnectionsChart sv st).2)
      = getConnectionsChart sv st := by
  unfold getConnectionsChart
  cases h : findChart st.charts (getChartId sv "connections.count") with
  | some c => simp [h]
  | none => simp [h, findChart_append_self _ _ _ h]

theorem getStreamKeysChart_reg (sv : Service) (s : String) (st : ChartsState) :
    regCount ((getStreamKeysChart sv s st).2)
        (getChartId sv ("stream." ++ s ++ ".key"))
      ≤ regCount st (getChartId sv ("stream." ++ s ++ ".key")) + 1 := by
  unfold getStreamKeysChart
  cases h : findChart st.charts (getChartId sv ("stream." ++ s ++ ".key")) with
  | some c => simp [h]
  | none => simp [h, regCount, List.filter_append]

theorem getStreamItemsChart_reg (sv : Service) (s : String) (st : ChartsState) :
    regCount ((getStreamItemsChart sv s st).2)
        (getChartId sv ("stream." ++ s ++ ".items"))
      ≤ regCount st (getChartId sv ("stream." ++ s ++ ".items")) + 1 := by
  unfold getStreamItemsChart
  cases h : findChart st.charts (getChartId sv ("stream." ++ s ++ ".items")) with
  | some c => simp [h]
  | none => simp [h, regCount, List.filter_append]

theorem getBlocksSizeChart_reg (sv : Service) (st : ChartsState) :
    regCount ((getBlocksSizeChart sv st).2) (getChartId sv "blocks.size")
      ≤ regCount st (getChartId sv "blocks.size") + 1 := by
  unfold getBlocksSizeChart
  cases h : findChart st.charts (getChartId sv "blocks.size") with
  | some c => simp [h]
  | none => simp [h, regCount, List.filter_append]

theorem getBlocksMemoryChart_reg (sv : Service) (st : ChartsState) :
    regCount ((getBlocksMemoryChart sv st).2) (getChartId sv "blocks.memory")
      ≤ regCount st (getChartId sv "blocks.memory") + 1 := by
  unfold getBlocksMemoryChart
  cases h : findChart st.charts (getChartId sv "blocks.memory") with
  | some c => simp [h]
  | none => simp [h, regCount, List.filter_append]

theorem getBlocksChart_reg (sv : Service) (st : ChartsState) :
    regCount ((getBlocksChart sv st).2) (getChartId sv "blocks.count")
      ≤ regCount st (getChartId sv "blocks.count") + 1 := by
  unfold getBlocksChart
  cases h : findChart st.charts (getChartId sv "blocks.count") with
  | some c => simp [h]
  | none => simp [h, regCount, List.filter_append]

theorem getConnectionsChart_reg (sv : Service) (st : ChartsState) :
    regCount ((getConnectionsChart sv st).2) (getChartId sv "connections.count")
      ≤ regCount st (getChartId sv "connections.count") + 1 := by
  unfold getConnectionsChart
  cases h : findChart st.charts (getChartId sv "connections.count") with
  | some c => simp [h]
  | none => simp [h, regCount, List.filter_append]

theorem parseStreamItemsChart_spec (sv : Service) (s : Stream)
    (st : ChartsState) (hwf : WFCharts st) :
    sampleView (parseStreamItemsChart sv s st).1
        = (getChartId sv ("stream." ++ s.name ++ ".items"),
           [ getDimension "confirmed" (some s.confirmed),
             getDimension "unconfirmed" (some (s.items - s.confirmed)) ]) ∧
    WFCharts (parseStreamItemsChart sv s st).2 := by
  have h := getStreamItemsChart_spec sv s.name st hwf
  unfold parseStreamItemsChart
  exact ⟨by simp [sampleView, getChart, h.1], h.2⟩

theorem parseStreamKeysChart_spec (sv : Service) (s : Stream)
    (st : ChartsState) (hwf : WFCharts st) :
    sampleView (parseStreamKeysChart sv s st).1
        = (getChartId sv ("stream." ++ s.name ++ ".key"),
           [ getDimension "keys" (some s.keys) ]) ∧
    WFCharts (parseStreamKeysChart sv s st).2 := by
  have h := getStreamKeysChart_spec sv s.name st hwf
  unfold parseStreamKeysChart
  exact ⟨by simp [sampleView, getChart, h.1, dimensions_stream_keys,
    streamLookup], h.2⟩

theorem parseBlocksSizeChart_spec (sv : Service) (stats : Stats)
    (st : ChartsState) (hwf : WFCharts st) :
    sampleView (parseBlocksSizeChart sv stats st).1
        = (getChartId sv "blocks.size",
           [ getDimension "memSize" stats.memSize ]) ∧
    WFCharts (parseBlocksSizeChart sv stats st).2 := by
  have h := getBlocksSizeChart_spec sv st hwf
  unfold parseBlocksSizeChart
  exact ⟨by simp [sampleView, getChart, h.1, dimensions_blocksSize,
    statsLookup], h.2⟩

theorem parseBlocksMemoryChart_spec (sv : Service) (stats : Stats)
    (st : ChartsState) (hwf : WFCharts st) :
    sampleView (parseBlocksMemoryChart sv stats st).1
        = (getChartId sv "blocks.memory",
           [ getDimension "memBytes" stats.memBytes ]) ∧
    WFCharts (parseBlocksMemoryChart sv stats st).2 := by
  have h := getBlocksMemoryChart_spec sv st hwf
  unfold parseBlocksMemoryChart
  exact ⟨by simp [sampleView, getChart, h.1, dimensions_blocksMemory,
    statsLookup], h.2⟩

theorem parseBlocksChart_spec (sv : Service) (stats : Stats)
    (st : ChartsState) (hwf : WFCharts st) :
    sampleView (parseBlocksChart sv stats st).1
        = (getChartId sv "blocks.count",
           [ getDimension "blocks" stats.blocks ]) ∧
    WFCharts (parseBlocksChart sv stats st).2 := by
  have h := getBlocksChart_spec sv st hwf
  unfold parseBlocksChart
  exact ⟨by simp [sampleView, getChart, h.1, dimensions_blocks,
    statsLookup], h.2⟩

theorem parseConnectionsChart_spec (sv : Service) (stats : Stats)
    (st : ChartsState) (hwf : WFCharts st) :
    sampleView (parseConnectionsChart sv stats st).1
        = (getChartId sv "connections.count",
           [ getDimension "connections" stats.connections ]) ∧
    WFCharts (parseConnectionsChart sv stats st).2 := by
  have h := getConnectionsChart_spec sv st hwf
  unfold parseConnectionsChart
  exact ⟨by simp [sampleView, getChart, h.1, dimensions_connections,
    statsLookup], h.2⟩

/-- The `forEach` stream loop, characterised: starting from any
well-formed cache state and any accumulated sample list, it appends
exactly the spec-mandated per-stream samples, in order, and preserves
cache well-formedness. -/
theorem streamFold_spec (sv : Service) (streams : List Stream) :
    ∀ (acc : List Sample) (st : ChartsState), WFCharts st →
      ((streams.foldl (streamStep sv) (acc, st)).1.map sampleView
          = acc.map sampleView ++ specStreamSamples sv streams)
      ∧ WFCharts (streams.foldl (streamStep sv) (acc, st)).2 := by
  induction streams with
  | nil =>
    intro acc st hwf
    exact ⟨by simp [specStreamSamples], hwf⟩
  | cons s rest ih =>
    intro acc st hwf
    by_cases hs : s.subscribed
    · have h1 := parseStreamItemsChart_spec sv s st hwf
      have h2 := parseStreamKeysChart_spec sv s
        (parseStreamItemsChart sv s st).2 h1.2
      have hrec := ih (acc ++ [(parseStreamItemsChart sv s st).1,
        (parseStreamKeysChart sv s (parseStreamItemsChart sv s st).2).1])
        ((parseStreamKeysChart sv s (parseStreamItemsChart sv s st).2).2) h2.2
      constructor
      · rw [List.foldl_cons]
        rw [show streamStep sv (acc, st) s
              = (acc ++ [(parseStreamItemsChart sv s st).1,
                  (parseStreamKeysChart sv s
                    (parseStreamItemsChart sv s st).2).1],
                 (parseStreamKeysChart sv s
                   (parseStreamItemsChart sv s st).2).2) by
            simp [streamStep, hs]]
        rw [hrec.1]
        simp [specStreamSamples, hs, h1.1, h2.1]
      · rw [List.foldl_cons]
        rw [show streamStep sv (acc, st) s
              = (acc ++ [(parseStreamItemsChart sv s st).1,
                  (parseStreamKeysChart sv s
                    (parseStreamItemsChart sv s st).2).1],
                 (parseStreamKeysChart sv s
                   (parseStreamItemsChart sv s st).2).2) by
            simp [streamStep, hs]]
        exact hrec.2
    · have hrec := ih acc st hwf
      rw [List.foldl_cons]
      rw [show streamStep sv (acc, st) s = (acc, st) by simp [streamStep, hs]]
      constructor
      · rw [hrec.1]
        simp [specStreamSamples, hs]
      · exact hrec.2

/-- `getChartId` is injective in the suffix for a fixed service:
the id is `name ++ "." ++ suffix`, and appending a fixed left part is
cancellable. -/
theorem getChartId_inj (sv : Service) (a b : String)
    (h : getChartId sv a = getChartId sv b) : a = b := by
  unfold getChartId at h
  have hd := congrArg String.data h
  simp only [String.data_append, List.append_assoc] at hd
  exact String.ext (List.append_cancel_left (List.append_cancel_left hd))

theorem streamItems_head (a : String) :
    ("stream." ++ a ++ ".items").data.head? = some 's' := rfl

theorem streamKey_head (a : String) :
    ("stream." ++ a ++ ".key").data.head? = some 's' := rfl

theorem streamItemsSuffix_inj (a b : String)
    (h : "stream." ++ a ++ ".items" = "stream." ++ b ++ ".items") : a = b := by
  have hd := congrArg String.data h
  simp only [String.data_append, List.append_assoc] at hd
  have hmid := List.append_cancel_left hd
  exact String.ext (List.append_cancel_right hmid)

theorem streamKeySuffix_inj (a b : String)
    (h : "stream." ++ a ++ ".key" = "stream." ++ b ++ ".key") : a = b := by
  have hd := congrArg String.data h
  simp only [String.data_append, List.append_assoc] at hd
  have hmid := List.append_cancel_left hd
  exact String.ext (List.append_cancel_right hmid)

/-- An items-chart suffix never equals a keys-chart suffix, whatever the
two stream names: the last character differs ('s' versus 'y'). -/
theorem streamItemsSuffix_ne_keySuffix (a b : String) :
    "stream." ++ a ++ ".items" ≠ "stream." ++ b ++ ".key" := by
  intro h
  have hd := congrArg (fun s => s.data.getLast?) h
  simp only [String.data_append, List.append_assoc] at hd
  rw [List.getLast?_append_of_ne_nil, List.getLast?_append_of_ne_nil] at hd
  rotate_left
  · simp
  · simp
  rw [List.getLast?_append_of_ne_nil, List.getLast?_append_of_ne_nil] at hd
  rotate_left
  · simp
  · simp
  simp at hd

theorem nodeChartIds_eq (sv : Service) :
    nodeChartIds sv = [ getChartId sv "blocks.size",
      getChartId sv "blocks.memory", getChartId sv "blocks.count",
      getChartId sv "connections.count" ] := rfl

/-- A stream items chart id never equals a node-level chart id: stream
suffixes start with 's', node-level suffixes with 'b' or 'c'. -/
theorem streamItems_ne_node (sv : Service) (t : String) (suffix : String)
    (hhead : suffix.data.head? ≠ some 's') :
    getChartId sv ("stream." ++ t ++ ".items") ≠ getChartId sv suffix := by
  intro h
  have := getChartId_inj sv _ _ h
  exact hhead (by rw [← this]; exact streamItems_head t)

theorem streamKey_ne_node (sv : Service) (t : String) (suffix : String)
    (hhead : suffix.data.head? ≠ some 's') :
    getChartId sv ("stream." ++ t ++ ".key") ≠ getChartId sv suffix := by
  intro h
  have := getChartId_inj sv _ _ h
  exact hhead (by rw [← this]; exact streamKey_head t)

/-- With `areUndefined` constantly `undefined`, the guard in
`configureStep` is always falsy, so every entry takes the `else` branch:
it is registered (after `update_every` defaulting) and counted. -/
theorem configureStep_eq (acc : Int × List Service) (server : ServerConfig) :
    configureStep acc server
      = (acc.1 + 1, acc.2 ++ [serviceExecute
          (if isUndefined server.update_every then
            { server with update_every := JsValue.num multichain_update_every }
           else server)]) := by
  simp [configureStep, areUndefined_eq_undef, jsTruthy]

/-- The `configure` loop increments the count for every entry of the
list, valid or not. -/
theorem configure_count (servers : List ServerConfig) :
    ∀ acc : Int × List Service,
      (servers.foldl configureStep acc).1 = acc.1 + servers.length := by
  induction servers with
  | nil => intro acc; simp
  | cons s rest ih =>
    intro acc
    rw [List.foldl_cons, configureStep_eq, ih]
    simp only [List.length_cons]
    push_cast
    ring

/-! ### Claims -/

/-- C1: `configure` on a missing `servers` key returns 0 and registers
nothing — that part holds. But the claim that an entry missing a
mandatory field is silently skipped is false: `areUndefined` uses
`Array.find`, whose result is the first undefined element (itself
`undefined`) or `undefined`, hence always falsy, so `configure`
registers and counts every entry. Evaluated at `srvBad` (an entry whose
`name` is undefined): it is registered and the count is 1, not 0; in
general the returned count is always the full length of `servers`. -/
theorem C1_configure_registers_missing_field_entries :
    configure { servers := none } = (0, []) ∧
    isUndefined srvBad.name = true ∧
    (configure { servers := some [srvBad] }).1 = 1 ∧
    (configure { servers := some [srvBad] }).2
      = [serviceExecute { srvBad with update_every := JsValue.num 5 }] ∧
    ∀ servers : List ServerConfig,
      (configure { servers := some servers }).1 = servers.length := by
  refine ⟨rfl, rfl, rfl, rfl, ?_⟩
  intro servers
  have h := configure_count servers (0, [])
  simpa [configure] using h

/-- C2: the collector's three-call chain hands `null` to its callback
whenever any step fails — a rejected first, second or third `post`, or a
thrown field access on an undefined `body.result` in the first or second
`then`. In particular a failing `getmempoolinfo` yields `none` whatever
`getinfo` returned: partial data is never published. -/
theorem C2_collector_aborts_to_null_on_any_failure :
    (∀ (e : String) c2 c3, process (Except.error e) c2 c3 = none) ∧
    (∀ c1 (e : String) c3, process c1 (Except.error e) c3 = none) ∧
    (∀ c1 c2 (e : String), process c1 c2 (Except.error e) = none) ∧
    (∀ c2 c3, process (Except.ok { body := { result := none } }) c2 c3
      = none) ∧
    (∀ r1 c3, process (Except.ok r1)
        (Except.ok { body := { result := none } }) c3 = none) := by
  refine ⟨fun e c2 c3 => rfl, ?_, ?_, fun c2 c3 => rfl, ?_⟩
  · intro c1 e c3
    cases c1 with
    | error e1 => rfl
    | ok r =>
      cases hr : r.body.result with
      | none => simp [process, hr]
      | some res => simp [process, hr]
  · intro c1 c2 e
    cases c1 with
    | error e1 => rfl
    | ok r =>
      cases hr : r.body.result with
      | none => simp [process, hr]
      | some res =>
        cases c2 with
        | error e2 => simp [process, hr]
        | ok m =>
          cases hm : m.body.result with
          | none => simp [process, hr, hm]
          | some res2 => simp [process, hr, hm]
  · intro r1 c3
    cases hr : r1.body.result with
    | none => simp [process, hr]
    | some res => simp [process, hr]

/-- C3: when `processResponse` receives `null` content, unparsable
content, or a snapshot whose `blocks` or `connections` is undefined, it
returns with an empty sink-event list and the chart state untouched: the
mapper is never reached, and no commit/begin/set/end call is made. -/
theorem C3_invalid_snapshot_emits_nothing :
    (∀ sv st, processResponse sv Content.jsNull st = Except.ok ([], st)) ∧
    (∀ sv st, processResponse sv Content.unparsable st
      = Except.ok ([], st)) ∧
    (∀ sv st (stats : Stats), processResponse sv
        (Content.parsed { stats with blocks := none }) st
      = Except.ok ([], st)) ∧
    (∀ sv st (stats : Stats), processResponse sv
        (Content.parsed { stats with connections := none }) st
      = Except.ok ([], st)) := by
  refine ⟨fun sv st => rfl, fun sv st => rfl, ?_, ?_⟩
  · intro sv st stats
    simp [processResponse, convertToJson, isResponseValid]
  · intro sv st stats
    cases hb : stats.blocks <;>
      simp [processResponse, convertToJson, isResponseValid, hb]

/-- C4: on a snapshot whose `streams` list is present, the mapper
succeeds and emits, in order: for each subscribed stream in RPC order,
its items chart with `confirmed = stream.confirmed` and
`unconfirmed = stream.items - stream.confirmed`, then its keys chart
with `keys = stream.keys`; unsubscribed streams contribute nothing;
then the blocks-size chart (dimension id `memSize`, display name
`size`, value `snapshot.memSize`), the blocks-memory chart (`memBytes`
displayed `memory`, value `snapshot.memBytes`), the blocks-count chart
(`blocks`), and the connections chart (`connections`). Stated against
any well-formed chart cache. -/
theorem C4_mapper_output_order_and_values (sv : Service) (stats : Stats)
    (streams : List Stream) (st : ChartsState)
    (hstreams : stats.streams = some streams) (hwf : WFCharts st) :
    ∃ samples st', parseCharts sv stats st = Except.ok (samples, st')
      ∧ samples.map sampleView
          = specStreamSamples sv streams ++ specNodeSamples sv stats := by
  obtain ⟨l0, st0, hf⟩ : ∃ a b, streams.foldl (streamStep sv) ([], st) = (a, b) :=
    ⟨_, _, rfl⟩
  obtain ⟨c1, st1, h1⟩ : ∃ a b, parseBlocksSizeChart sv stats st0 = (a, b) :=
    ⟨_, _, rfl⟩
  obtain ⟨c2, st2, h2⟩ : ∃ a b, parseBlocksMemoryChart sv stats st1 = (a, b) :=
    ⟨_, _, rfl⟩
  obtain ⟨c3, st3, h3⟩ : ∃ a b, parseBlocksChart sv stats st2 = (a, b) :=
    ⟨_, _, rfl⟩
  obtain ⟨c4, st4, h4⟩ : ∃ a b, parseConnectionsChart sv stats st3 = (a, b) :=
    ⟨_, _, rfl⟩
  have hfold := streamFold_spec sv streams [] st hwf
  rw [hf] at hfold
  simp only [List.map_nil, List.nil_append] at hfold
  have hb1 := parseBlocksSizeChart_spec sv stats st0 hfold.2
  rw [h1] at hb1
  have hb2 := parseBlocksMemoryChart_spec sv stats st1 hb1.2
  rw [h2] at hb2
  have hb3 := parseBlocksChart_spec sv stats st2 hb2.2
  rw [h3] at hb3
  have hb4 := parseConnectionsChart_spec sv stats st3 hb3.2
  rw [h4] at hb4
  refine ⟨l0 ++ [c1, c2, c3, c4], st4, ?_, ?_⟩
  · simp only [parseCharts, hstreams, hf, h1, h2, h3, h4]
  · simp only [List.map_append, hfold.1, List.map_cons, List.map_nil,
      hb1.1, hb2.1, hb3.1, hb4.1]
    simp [specNodeSamples]

/-- Witness for C4: the spec's worked example — one subscribed stream
`{items:10, confirmed:7, keys:3}`, snapshot
`{blocks:100, connections:5, memSize:2, memBytes:512}` — evaluated from
the empty chart cache. -/
theorem C4_mapper_output_witness :
    ∃ samples st',
      parseCharts svc1 statsEx emptyChartsState = Except.ok (samples, st') ∧
      samples.map sampleView
        = specStreamSamples svc1 [streamEx] ++ specNodeSamples svc1 statsEx :=
  C4_mapper_output_order_and_values svc1 statsEx [streamEx] emptyChartsState
    rfl (fun p hp => absurd hp (List.not_mem_nil p))

/-- C5: each of the six get-or-create chart functions is idempotent —
called again with the same service (and stream name) from the state the
first call produced, it returns the very same chart and the very same
state, so no second sink registration happens — and any single call adds
at most one registration for its chart id. -/
theorem C5_chart_get_or_create_idempotent :
    (∀ sv s st, getStreamKeysChart sv s ((getStreamKeysChart sv s st).2)
        = getStreamKeysChart sv s st ∧
      regCount ((getStreamKeysChart sv s st).2)
          (getChartId sv ("stream." ++ s ++ ".key"))
        ≤ regCount st (getChartId sv ("stream." ++ s ++ ".key")) + 1) ∧
    (∀ sv s st, getStreamItemsChart sv s ((getStreamItemsChart sv s st).2)
        = getStreamItemsChart sv s st ∧
      regCount ((getStreamItemsChart sv s st).2)
          (getChartId sv ("stream." ++ s ++ ".items"))
        ≤ regCount st (getChartId sv ("stream." ++ s ++ ".items")) + 1) ∧
    (∀ sv st, getBlocksSizeChart sv ((getBlocksSizeChart sv st).2)
        = getBlocksSizeChart sv st ∧
      regCount ((getBlocksSizeChart sv st).2) (getChartId sv "blocks.size")
        ≤ regCount st (getChartId sv "blocks.size") + 1) ∧
    (∀ sv st, getBlocksMemoryChart sv ((getBlocksMemoryChart sv st).2)
        = getBlocksMemoryChart sv st ∧
      regCount ((getBlocksMemoryChart sv st).2) (getChartId sv "blocks.memory")
        ≤ regCount st (getChartId sv "blocks.memory") + 1) ∧
    (∀ sv st, getBlocksChart sv ((getBlocksChart sv st).2)
        = getBlocksChart sv st ∧
      regCount ((getBlocksChart sv st).2) (getChartId sv "blocks.count")
        ≤ regCount st (getChartId sv "blocks.count") + 1) ∧
    (∀ sv st, getConnectionsChart sv ((getConnectionsChart sv st).2)
        = getConnectionsChart sv st ∧
      regCount ((getConnectionsChart sv st).2)
          (getChartId sv "connections.count")
        ≤ regCount st (getChartId sv "connections.count") + 1) :=
  ⟨fun sv s st =>
      ⟨getStreamKeysChart_idem sv s st, getStreamKeysChart_reg sv s st⟩,
   fun sv s st =>
      ⟨getStreamItemsChart_idem sv s st, getStreamItemsChart_reg sv s st⟩,
   fun sv st => ⟨getBlocksSizeChart_idem sv st, getBlocksSizeChart_reg sv st⟩,
   fun sv st =>
      ⟨getBlocksMemoryChart_idem sv st, getBlocksMemoryChart_reg sv st⟩,
   fun sv st => ⟨getBlocksChart_idem sv st, getBlocksChart_reg sv st⟩,
   fun sv st =>
      ⟨getConnectionsChart_idem sv st, getConnectionsChart_reg sv st⟩⟩

/-- C6: the items chart always carries
`unconfirmed = items - confirmed`, computed without clamping; when
`items ≥ confirmed ≥ 0` the emitted value is ≥ 0, and for the concrete
stream `streamNeg` with `confirmed = 5 > items = 3` the emitted value is
the negative number -2. -/
theorem C6_unconfirmed_is_unclamped_difference :
    (∀ sv st (s : Stream),
      ((parseStreamItemsChart sv s st).1).dimensions
        = [ getDimension "confirmed" (some s.confirmed),
            getDimension "unconfirmed" (some (s.items - s.confirmed)) ]) ∧
    (∀ sv st (s : Stream), 0 ≤ s.confirmed → s.confirmed ≤ s.items →
      ∃ u, ((parseStreamItemsChart sv s st).1).dimensions
          = [ getDimension "confirmed" (some s.confirmed),
              getDimension "unconfirmed" (some u) ] ∧ 0 ≤ u) ∧
    (streamNeg.items < streamNeg.confirmed ∧
      ((parseStreamItemsChart svc1 streamNeg emptyChartsState).1).dimensions
        = [ getDimension "confirmed" (some 5),
            getDimension "unconfirmed" (some (-2)) ] ∧ (-2 : Int) < 0) := by
  refine ⟨fun sv st s => rfl, ?_, by decide, by decide, by decide⟩
  intro sv st s h0 h1
  exact ⟨s.items - s.confirmed, rfl, by omega⟩

/-- Witness for C6: the worked-example stream `{items:10, confirmed:7}`
yields a non-negative `unconfirmed` value. -/
theorem C6_unconfirmed_witness :
    ∃ u, ((parseStreamItemsChart svc1 streamEx emptyChartsState).1).dimensions
        = [ getDimension "confirmed" (some streamEx.confirmed),
            getDimension "unconfirmed" (some u) ] ∧ 0 ≤ u :=
  C6_unconfirmed_is_unclamped_difference.2.1 svc1 emptyChartsState streamEx
    (by decide) (by decide)

/-- C7: the claim says the service and its charts carry the node's
configured `update_every`. The code does not: `serviceExecute` reads
`server.updateEvery` — a property no configuration entry has — instead
of `server.update_every`, so a server configured with `update_every = 7`
(`srv7`) produces a service, and charts, whose `update_every` is
`undefined`. The defaulting performed by `configure` is thereby dead. -/
theorem C7_configured_update_every_dropped :
    srv7.update_every = JsValue.num 7 ∧
    (serviceExecute srv7).update_every = JsValue.undef ∧
    (configure { servers := some [srv7] }).2.map Service.update_every
      = [JsValue.undef] ∧
    (getBlocksSizeChart (serviceExecute srv7) emptyChartsState).1.update_every
      = JsValue.undef :=
  ⟨rfl, rfl, rfl, rfl⟩

/-- C8: `post` resolves exactly when the HTTP status is in [200,299];
a body that fails JSON parsing still settles by status alone, with the
parse error carried in the body; a connection-level error rejects with
status code -1; any non-2xx status rejects with the response itself. -/
theorem C8_post_settlement_policy :
    (∀ (α : Type) (sc : Int) (sm : String) (p : Except String α),
      (∃ r, post (HttpOutcome.gotResponse sc sm p) = Except.ok r)
        ↔ (200 ≤ sc ∧ sc ≤ 299)) ∧
    (∀ (α : Type) (sc : Int) (sm : String) (e : String),
      post (α := α) (HttpOutcome.gotResponse sc sm (Except.error e))
        = if 200 ≤ sc ∧ sc ≤ 299 then
            Except.ok ⟨sc, sm, PostBody.jsonError e⟩
          else
            Except.error ⟨sc, sm, PostBody.jsonError e⟩) ∧
    (∀ (α : Type) (e : String),
      post (α := α) (HttpOutcome.connError e)
        = Except.error ⟨-1, "Error during call", PostBody.jsonError e⟩) ∧
    (∀ (α : Type) (sc : Int) (sm : String) (p : Except String α),
      (sc < 200 ∨ 299 < sc) →
        ∃ r, post (HttpOutcome.gotResponse sc sm p) = Except.error r
          ∧ r.statusCode = sc) := by
  refine ⟨?_, ?_, fun α e => rfl, ?_⟩
  · intro α sc sm p
    constructor
    · rintro ⟨r, hr⟩
      unfold post at hr
      by_cases h1 : sc < 200
      · simp [h1] at hr
      · by_cases h2 : sc > 299
        · simp [h1, h2] at hr
        · constructor <;> omega
    · rintro ⟨h1, h2⟩
      have hn1 : ¬ sc < 200 := by omega
      have hn2 : ¬ sc > 299 := by omega
      refine ⟨⟨sc, sm, match p with
        | Except.ok a => PostBody.json a
        | Except.error e => PostBody.jsonError e⟩, ?_⟩
      simp [post, hn1, hn2]
  · intro α sc sm e
    by_cases h1 : sc < 200
    · have h : ¬ (200 ≤ sc ∧ sc ≤ 299) := by omega
      simp [post, h1, h]
    · by_cases h2 : sc > 299
      · have h : ¬ (200 ≤ sc ∧ sc ≤ 299) := by omega
        simp [post, h1, h2, h]
      · have h : 200 ≤ sc ∧ sc ≤ 299 := by omega
        simp [post, h1, h2, h]
  · intro α sc sm p h
    have h1 : sc < 200 ∨ sc > 299 := by omega
    refine ⟨⟨sc, sm, match p with
      | Except.ok a => PostBody.json a
      | Except.error e => PostBody.jsonError e⟩, ?_, rfl⟩
    rcases h1 with h1 | h1
    · simp [post, h1]
    · have hn : ¬ sc < 200 := by omega
      simp [post, hn, h1]

/-- Witness for C8: a 404 response rejects with the response object,
whatever the parsed body was. -/
theorem C8_post_settlement_witness :
    ∃ r, post (HttpOutcome.gotResponse 404 "Not Found"
        (Except.ok ())) = Except.error r ∧ r.statusCode = 404 :=
  C8_post_settlement_policy.2.2.2 Unit 404 "Not Found" (Except.ok ())
    (by decide)

/-- C9 counterexample: the claim speaks of five node-level chart kinds;
the code creates exactly four (blocks size, blocks memory, blocks count,
connections), as `nodeChartIds` — read off the four node-level
get-or-create functions — shows at the concrete service `svc1`. -/
theorem C9_four_node_chart_kinds_not_five :
    (nodeChartIds svc1).length = 4 ∧ (nodeChartIds svc1).length ≠ 5 :=
  ⟨rfl, by decide⟩

/-- C9 (amended to the code's four node-level chart kinds): for any
service, the four node-level chart ids are pairwise distinct; distinct
stream names give distinct items ids and distinct keys ids; an items id
never equals a keys id, whatever the two stream names; and no stream
chart id ever equals a node-level chart id. -/
theorem C9_chart_ids_pairwise_distinct (sv : Service) (s1 s2 : String)
    (hne : s1 ≠ s2) :
    List.Pairwise (fun a b => a ≠ b) (nodeChartIds sv) ∧
    getChartId sv ("stream." ++ s1 ++ ".items")
      ≠ getChartId sv ("stream." ++ s2 ++ ".items") ∧
    getChartId sv ("stream." ++ s1 ++ ".key")
      ≠ getChartId sv ("stream." ++ s2 ++ ".key") ∧
    (∀ t u : String, getChartId sv ("stream." ++ t ++ ".items")
      ≠ getChartId sv ("stream." ++ u ++ ".key")) ∧
    (∀ t : String, ∀ nid ∈ nodeChartIds sv,
      getChartId sv ("stream." ++ t ++ ".items") ≠ nid ∧
      getChartId sv ("stream." ++ t ++ ".key") ≠ nid) := by
  refine ⟨?_, ?_, ?_, ?_, ?_⟩
  · have e : nodeChartIds sv
        = (["blocks.size", "blocks.memory", "blocks.count",
            "connections.count"].map (getChartId sv)) := rfl
    rw [e, List.pairwise_map]
    have hp : List.Pairwise (fun a b : String => a ≠ b)
        ["blocks.size", "blocks.memory", "blocks.count",
         "connections.count"] := by decide
    exact hp.imp (fun hab h => hab (getChartId_inj sv _ _ h))
  · intro h
    exact hne (streamItemsSuffix_inj s1 s2 (getChartId_inj sv _ _ h))
  · intro h
    exact hne (streamKeySuffix_inj s1 s2 (getChartId_inj sv _ _ h))
  · intro t u h
    exact streamItemsSuffix_ne_keySuffix t u (getChartId_inj sv _ _ h)
  · intro t nid hnid
    rw [nodeChartIds_eq] at hnid
    simp only [List.mem_cons, List.not_mem_nil, or_false] at hnid
    rcases hnid with rfl | rfl | rfl | rfl
    all_goals exact ⟨streamItems_ne_node sv t _ (by decide),
      streamKey_ne_node sv t _ (by decide)⟩

/-- Witness for C9: the distinctness statement evaluated at the concrete
service `svc1` and the distinct stream names "a" and "b". -/
theorem C9_chart_ids_witness :
    List.Pairwise (fun a b => a ≠ b) (nodeChartIds svc1) ∧
    getChartId svc1 ("stream." ++ "a" ++ ".items")
      ≠ getChartId svc1 ("stream." ++ "b" ++ ".items") ∧
    getChartId svc1 ("stream." ++ "a" ++ ".key")
      ≠ getChartId svc1 ("stream." ++ "b" ++ ".key") ∧
    (∀ t u : String, getChartId svc1 ("stream." ++ t ++ ".items")
      ≠ getChartId svc1 ("stream." ++ u ++ ".key")) ∧
    (∀ t : String, ∀ nid ∈ nodeChartIds svc1,
      getChartId svc1 ("stream." ++ t ++ ".items") ≠ nid ∧
      getChartId svc1 ("stream." ++ t ++ ".key") ≠ nid) :=
  C9_chart_ids_pairwise_distinct svc1 "a" "b" (by decide)

/-- C10: the snapshot `statsNoStreams` — `blocks` and `connections`
defined, `streams` absent, exactly what the collector hands over when
`liststreams` resolves with an undefined `body.result` — passes the
validity check, yet `parseCharts` throws on it and `processResponse`
propagates the throw: validity does not make the mapper total. -/
theorem C10_valid_snapshot_mapper_throws :
    isResponseValid statsNoStreams = true ∧
    convertToJson (Content.parsed statsNoStreams) = some statsNoStreams ∧
    process
        (Except.ok ⟨⟨some ⟨some 100, some 5⟩⟩⟩)
        (Except.ok ⟨⟨some ⟨some 2, some 512⟩⟩⟩)
        (Except.ok ⟨⟨none⟩⟩)
      = some statsNoStreams ∧
    (∃ e, parseCharts svc1 statsNoStreams emptyChartsState
      = Except.error e) ∧
    (∃ e, processResponse svc1 (Content.parsed statsNoStreams)
        emptyChartsState = Except.error e) :=
  ⟨rfl, rfl, rfl, ⟨_, rfl⟩, ⟨_, rfl⟩⟩

end Multichain
